import Mathlib

/-!
Shallow embedding of `shm-bridge` (a Wine/Linux shared-memory bridge):
* `src/mounts_parser.rs` — a nom-based parser for `/proc/mounts` lines,
* `src/file_mapping.rs`  — a file-backed named shared-memory mapping,
* `src/main.rs`          — startup / shutdown orchestration over a fixed
  segment list.

Rust strings are embedded as `List Char` (fields as `String`), machine
integers as `Nat` with explicit bounds where overflow matters, fallible
steps as `Option` / `Except`, and the effectful startup / shutdown loops
as functions that also return the list of observable events in order.
-/

/-! ## Mount-table parser (`src/mounts_parser.rs`) -/

/-- Embeds Rust `char::is_whitespace`: the Unicode `White_Space` property
(U+0009-U+000D, U+0020, U+0085, U+00A0, U+1680, U+2000-U+200A, U+2028,
U+2029, U+202F, U+205F, U+3000). -/
def rustIsWhitespace (c : Char) : Bool :=
  (0x09 ≤ c.toNat && c.toNat ≤ 0x0d) || c.toNat == 0x20 ||
  c.toNat == 0x85 || c.toNat == 0xa0 || c.toNat == 0x1680 ||
  (0x2000 ≤ c.toNat && c.toNat ≤ 0x200a) ||
  c.toNat == 0x2028 || c.toNat == 0x2029 || c.toNat == 0x202f ||
  c.toNat == 0x205f || c.toNat == 0x3000

/-- nom `space0`/`space1` accept only spaces and tabs. -/
def isNomSpace (c : Char) : Bool :=
  c == ' ' || c == '\t'

/-- Splits a list at the first character that fails `p`
(the underlying loop of nom's `take_till`/`take_while1`). -/
def spanWhile (p : Char → Bool) : List Char → List Char × List Char
  | [] => ([], [])
  | c :: cs =>
    if p c then
      let (tok, rest) := spanWhile p cs
      (c :: tok, rest)
    else
      ([], c :: cs)

/-- nom `take_till p`: longest (possibly empty) run of characters with `¬ p`. -/
def takeTill (p : Char → Bool) (input : List Char) : List Char × List Char :=
  spanWhile (fun c => !p c) input

/-- nom `take_while1 p`: longest run with `p`, failing when it is empty. -/
def takeWhile1 (p : Char → Bool) (input : List Char) : Option (List Char × List Char) :=
  match spanWhile p input with
  | ([], _) => none
  | (tok, rest) => some (tok, rest)

/-- nom `space0`: drop leading spaces/tabs. -/
def space0 (input : List Char) : List Char :=
  (spanWhile isNomSpace input).2

/-- nom `space1`: require at least one space/tab, then drop the run. -/
def space1 (input : List Char) : Option (List Char) :=
  match input with
  | c :: cs => if isNomSpace c then some (space0 cs) else none
  | [] => none

/-- Embeds `transform_escaped` (mounts_parser.rs:124):
`escaped_transform(is_not("\\"), '\\', alt((escaped_backslash, escaped_space)))`.
Ordinary characters pass through; after a `\` only `\\` (a literal backslash)
or `040` (a literal space) are accepted, anything else is a parse error. -/
def transform_escaped : List Char → Option (List Char)
  | [] => some []
  | '\\' :: '\\' :: rest => (transform_escaped rest).map (fun s => '\\' :: s)
  | '\\' :: '0' :: '4' :: '0' :: rest => (transform_escaped rest).map (fun s => ' ' :: s)
  | '\\' :: _ => none
  | c :: rest => (transform_escaped rest).map (fun s => c :: s)

/-- Embeds `string` (mounts_parser.rs:132):
`map_parser(take_till(char::is_whitespace), transform_escaped)`.
`transform_escaped` consumes its whole slice or fails, so the field
succeeds exactly when escape decoding of the whole token succeeds. -/
def string (input : List Char) : Option (List Char × List Char) :=
  let (tok, rest) := takeTill rustIsWhitespace input
  match transform_escaped tok with
  | some s => some (s, rest)
  | none => none

/-- Embeds `FileSystemType` (mounts_parser.rs:62). -/
inductive FileSystemType where
  | tmpFs : FileSystemType
  | unknown : String → FileSystemType
deriving DecidableEq, Repr

/-- Embeds `impl From<&str> for FileSystemType` (mounts_parser.rs:68):
only the exact string "tmpfs" maps to `TmpFs`. -/
def FileSystemType.ofStr (value : String) : FileSystemType :=
  if value = "tmpfs" then FileSystemType.tmpFs else FileSystemType.unknown value

/-- Embeds `Mount` (mounts_parser.rs:52); `PathBuf` is embedded as `String`. -/
structure Mount where
  device : String
  mount_point : String
  file_system_type : FileSystemType
  options : List String
  file_system_frequency : Nat
  file_system_pass_number : Nat
deriving DecidableEq, Repr

/-- Embeds `device` (mounts_parser.rs:140): `space0, string, space1`. -/
def device (input : List Char) : Option (List Char × List Char) :=
  match string (space0 input) with
  | some (dev, rest) =>
    match space1 rest with
    | some rest' => some (dev, rest')
    | none => none
  | none => none

/-- Embeds `mount_point` (mounts_parser.rs:144): `space0, string, space1`. -/
def mount_point (input : List Char) : Option (List Char × List Char) :=
  device input

/-- Embeds `filesystem_type` (mounts_parser.rs:150): `space0, string, space1`
followed by `FileSystemType::from`. -/
def filesystem_type (input : List Char) : Option (FileSystemType × List Char) :=
  match device input with
  | some (s, rest) => some (FileSystemType.ofStr (String.mk s), rest)
  | none => none

/-- Embeds `separated_list1(tag(","), string_without_comma)`
(mounts_parser.rs:156-161).  The element parser `take_till(',' or whitespace)`
never fails and the separator always consumes one character, so the loop
consumes the maximal non-whitespace run, split at commas. -/
def sepItems : List Char → List (List Char) × List Char
  | [] => ([[]], [])
  | c :: cs =>
    if rustIsWhitespace c then ([[]], c :: cs)
    else if c == ',' then
      let (items, rest) := sepItems cs
      ([] :: items, rest)
    else
      match sepItems cs with
      | (item :: items, rest) => ((c :: item) :: items, rest)
      | ([], rest) => ([[c]], rest)

/-- Embeds `mount_options` (mounts_parser.rs:156): `space0`, the comma
separated list, `space1`. -/
def mount_options (input : List Char) : Option (List String × List Char) :=
  match sepItems (space0 input) with
  | (items, rest) =>
    match space1 rest with
    | some rest' => some (items.map (fun l => String.mk l), rest')
    | none => none

/-- Value of a digit string, as read left to right. -/
def digitsToNat (ds : List Char) : Nat :=
  ds.foldl (fun acc c => acc * 10 + (c.toNat - '0'.toNat)) 0

/-- Embeds `from_digit` (mounts_parser.rs:112): `u8::from_str_radix(input, 10)`
on a run of ASCII digits; fails exactly when the value overflows `u8`. -/
def from_digit (ds : List Char) : Option Nat :=
  if digitsToNat ds ≤ 255 then some (digitsToNat ds) else none

/-- Embeds `fs_frequency` (mounts_parser.rs:163):
`map_res((space0, take_while1(is_digit), space1), from_digit)`. -/
def fs_frequency (input : List Char) : Option (Nat × List Char) :=
  match takeWhile1 Char.isDigit (space0 input) with
  | some (ds, rest) =>
    match space1 rest with
    | some rest' =>
      match from_digit ds with
      | some n => some (n, rest')
      | none => none
    | none => none
  | none => none

/-- nom `one_of("012")`: one character from the set, returned verbatim. -/
def one_of012 (input : List Char) : Option (Char × List Char) :=
  match input with
  | c :: cs => if c == '0' || c == '1' || c == '2' then some (c, cs) else none
  | [] => none

/-- Embeds `fs_passno` (mounts_parser.rs:169):
`map_res((space0, one_of("012"), space0), from_digit)`. -/
def fs_passno (input : List Char) : Option (Nat × List Char) :=
  match one_of012 (space0 input) with
  | some (c, rest) => some (c.toNat - '0'.toNat, space0 rest)
  | none => none

/-- Embeds `parse_line` (mounts_parser.rs:175): `all_consuming` over the six
fields in order; the whole line must be consumed. -/
def parse_line (line : List Char) : Option Mount :=
  match device line with
  | none => none
  | some (dev, r1) =>
    match mount_point r1 with
    | none => none
    | some (mp, r2) =>
      match filesystem_type r2 with
      | none => none
      | some (fsty, r3) =>
        match mount_options r3 with
        | none => none
        | some (opts, r4) =>
          match fs_frequency r4 with
          | none => none
          | some (freq, r5) =>
            match fs_passno r5 with
            | none => none
            | some (pn, r6) =>
              if r6 = [] then
                some { device := String.mk dev
                       mount_point := String.mk mp
                       file_system_type := fsty
                       options := opts
                       file_system_frequency := freq
                       file_system_pass_number := pn }
              else none

/-- Embeds the loop of `parse_proc_mouns` (mounts_parser.rs:30), applied to the
lines already read: a line that parses is appended to the mount list, a line
that fails to parse is recorded as one diagnostic and skipped. -/
def parse_proc_mouns (lines : List String) : List Mount × List String :=
  match lines with
  | [] => ([], [])
  | l :: rest =>
    let (ms, ds) := parse_proc_mouns rest
    match parse_line l.data with
    | some m => (m :: ms, ds)
    | none => (ms, ("Failed to parse a /proc/mounts line: " ++ l) :: ds)

/-! ## File-backed mapping (`src/file_mapping.rs`) -/

/-- The only piece of backing-file state `FileMapping::new` manipulates:
the file's length in bytes. -/
structure RustFile where
  len : Nat
deriving DecidableEq, Repr

/-- Observable steps of `FileMapping::new`, in order: the `set_len` resize
call and the `CreateFileMappingW` call with its split size halves. -/
inductive MapEvent where
  | setLen : Nat → MapEvent
  | createFileMapping : Nat → Nat → String → MapEvent
deriving DecidableEq, Repr

/-- Error taxonomy of `FileMapping::new`: a resize (I/O) failure or a native
mapping-creation failure. -/
inductive MapError where
  | ioError : String → MapError
  | mappingError : String → MapError
deriving DecidableEq, Repr

/-- High half of the mapping size (file_mapping.rs:67):
`((size as u64 & 0xFFFF_FFFF_0000_0000_u64) >> 32) as u32`. -/
def high_size (size : Nat) : Nat :=
  (size &&& 0xFFFFFFFF00000000) >>> 32

/-- Low half of the mapping size (file_mapping.rs:68):
`(size as u64 & 0xFFFF_FFFF_u64) as u32`. -/
def low_size (size : Nat) : Nat :=
  size &&& 0xFFFFFFFF

/-- Embeds `FileMapping::new` (file_mapping.rs:63).  The two fallible native
calls are oracles: `setLenFails` tells whether `file.set_len` fails, and
`createRes` is `CreateFileMappingW`'s outcome (`none` = success,
`some e` = the native error).  Returns the events issued, in order, and
either the error or the resized file together with the created handle's
size halves. -/
def FileMapping.new (name : String) (file : RustFile) (size : Nat)
    (setLenFails : Bool) (createRes : Option String) :
    List MapEvent × Except MapError (RustFile × Nat × Nat) :=
  if setLenFails then
    ([MapEvent.setLen size],
     Except.error (MapError.ioError "Couldn't set the file size of the FileMapping."))
  else
    ([MapEvent.setLen size, MapEvent.createFileMapping (high_size size) (low_size size) name],
     match createRes with
     | some e => Except.error (MapError.mappingError ("Failed to create the FileMapping: " ++ e))
     | none =>
       let resized : RustFile := { file with len := size }
       Except.ok (resized, high_size size, low_size size))

/-! ## Orchestrator (`src/main.rs`) -/

/-- The fixed segment table `ACC_FILES` (main.rs:51). -/
def ACC_FILES : List String :=
  ["acpmf_crewchief", "acpmf_static", "acpmf_physics", "acpmf_graphics"]

/-- Embeds `file_size` (main.rs:59). -/
def file_size (name : String) : Nat :=
  if name = "acpmf_crewchief" then 15660 else 2048

/-- Embeds `find_shm_dir` (main.rs:66): the function ignores the mount table
and returns the constant `TMPFS_PATH`. -/
def find_shm_dir : String :=
  "/dev/shm/"

/-- Observable orchestrator steps: creating a mapping for a segment,
unlinking a segment's backing file, and a `FileMapping` handle being
released (its `Drop` impl, file_mapping.rs:93). -/
inductive Ev where
  | create : String → Ev
  | unlink : String → Ev
  | closeHandle : String → Ev
deriving DecidableEq, Repr

/-- The `with_context` wrapper of the startup loop (main.rs:143). -/
def create_file_mapping_ctx (name : String) : String :=
  "Error creating a file mapping for " ++ name

/-- The `with_context` wrapper of the shutdown loop (main.rs:173). -/
def unlink_ctx (name : String) : String :=
  "Could not unlink the /dev/shm backed file " ++ name

/-- Embeds the startup loop of `main` (main.rs:140-147).  `create` is the
oracle for `create_file_mapping` on a segment name and its size (`ok` or the
underlying cause).  `acc` is the `mappings` vector built so far (segment
names, in creation order).  On the first failure the loop stops, the error
is wrapped with a context naming the segment, and — as `main` returns — the
`mappings` vector is dropped, releasing every already-created mapping. -/
def startupLoop (create : String → Nat → Except String Unit) :
    List String → List String → List Ev × Except (String × String) (List String)
  | acc, [] => ([], Except.ok acc)
  | acc, f :: rest =>
    match create f (file_size f) with
    | Except.ok _ =>
      let (evs, res) := startupLoop create (acc ++ [f]) rest
      (Ev.create f :: evs, res)
    | Except.error e =>
      (acc.map Ev.closeHandle, Except.error (create_file_mapping_ctx f, e))

/-- `main`'s startup phase over the configured segment list. -/
def startup (create : String → Nat → Except String Unit) :
    List Ev × Except (String × String) (List String) :=
  startupLoop create [] ACC_FILES

/-- Embeds the shutdown sequence of `main` (main.rs:162-176).  `unlinkRes`
is the oracle for `remove_file` on a segment name (`none` = success,
`some e` = the I/O error).  `held` is the list of live `FileMapping`s.
Each iteration attempts the unlink; on failure the `?` operator aborts the
loop and `main` returns the error wrapped with a context naming the
segment — the `mappings` vector is dropped either way, closing every held
handle after the loop ends. -/
def shutdownRun (unlinkRes : String → Option String) :
    List String → List String → List Ev × Except (String × String) Unit
  | [], held => (held.map Ev.closeHandle, Except.ok ())
  | f :: rest, held =>
    match unlinkRes f with
    | none =>
      let (evs, res) := shutdownRun unlinkRes rest held
      (Ev.unlink f :: evs, res)
    | some e =>
      (Ev.unlink f :: held.map Ev.closeHandle,
       Except.error (unlink_ctx f, e))

/-! ## Discovery policy as the spec words it (for comparison with
`find_shm_dir`) -/

/-- `DiscoveryError` as described by the spec's discovery contract. -/
inductive DiscoveryError where
  | noTmpfsFound : DiscoveryError
deriving DecidableEq, Repr

/-- Modelled from the spec: `findTmpfsDirectory` — "Filter to records where
`filesystem_type == TmpFs`.  Selection policy when multiple candidates
exist: prefer the conventional shared-memory path if present among
candidates, otherwise select the first candidate encountered in table
order.  Fails with `DiscoveryError::NoTmpfsFound` when zero candidates
exist."  The code's counterpart, `find_shm_dir`, takes no mount records;
this definition exists to compare the two. -/
def findTmpfsDirectorySpec (mounts : List Mount) : Except DiscoveryError String :=
  let candidates :=
    (mounts.filter (fun m => m.file_system_type = FileSystemType.tmpFs)).map
      (fun m => m.mount_point)
  if candidates.contains "/dev/shm" then Except.ok "/dev/shm"
  else
    match candidates with
    | [] => Except.error DiscoveryError.noTmpfsFound
    | c :: _ => Except.ok c

/-- A mount table with zero tmpfs records, for exercising the discovery
policy. -/
def mountsNoTmpfs : List Mount :=
  [{ device := "/dev/sda1", mount_point := "/",
     file_system_type := FileSystemType.unknown "ext4",
     options := ["rw"], file_system_frequency := 0, file_system_pass_number := 0 }]

/-- A `remove_file` oracle that fails on the first configured segment with
the error `remove_file` reports for an already-absent file. -/
def failCrewchiefUnlink : String → Option String :=
  fun n => if n = "acpmf_crewchief" then some "No such file or directory (os error 2)" else none

/-- A well-formed mount line whose pass-number field is the single
character `c`. -/
def passnoTemplate (c : Char) : List Char :=
  "proc /proc proc rw 0 ".data ++ [c]

/-! ## Theorems -/

/-- Claim C10: filesystem-type classification is an exact, case-sensitive
string match — `FileSystemType::from` yields `TmpFs` iff the field is
exactly "tmpfs", and any other string is preserved unchanged inside
`Unknown`. -/
theorem filesystem_type_exact_match :
    ∀ s : String,
      (FileSystemType.ofStr s = FileSystemType.tmpFs ↔ s = "tmpfs")
      ∧ (s ≠ "tmpfs" → FileSystemType.ofStr s = FileSystemType.unknown s) := by
  intro s
  refine ⟨⟨fun h => ?_, fun h => by simp [FileSystemType.ofStr, h]⟩,
    fun h => by simp [FileSystemType.ofStr, h]⟩
  by_contra hne
  simp [FileSystemType.ofStr, hne] at h

/-- Witness for C10 at the case variants named by the claim. -/
theorem filesystem_type_exact_match_witness :
    FileSystemType.ofStr "TMPFS" = FileSystemType.unknown "TMPFS"
    ∧ FileSystemType.ofStr "TmpFs" = FileSystemType.unknown "TmpFs"
    ∧ FileSystemType.ofStr "tmpfs" = FileSystemType.tmpFs :=
  ⟨(filesystem_type_exact_match "TMPFS").2 (by decide),
   (filesystem_type_exact_match "TmpFs").2 (by decide),
   (filesystem_type_exact_match "tmpfs").1.mpr rfl⟩

/-- Claim C9: the mapping size is split into two independent 32-bit halves
and the split is exact — the high half is `size / 2^32`, the low half is
`size % 2^32`, and `high * 2^32 + low` reconstructs the size. -/
theorem size_split_exact (size : Nat) (h : size < 2 ^ 64) :
    high_size size = size / 2 ^ 32
    ∧ low_size size = size % 2 ^ 32
    ∧ high_size size * 2 ^ 32 + low_size size = size := by
  have hlow : low_size size = size % 2 ^ 32 := by
    have hm : (0xFFFFFFFF : Nat) = 2 ^ 32 - 1 := by norm_num
    rw [low_size, hm, Nat.and_pow_two_sub_one_eq_mod]
  have hhigh : high_size size = size / 2 ^ 32 := by
    apply Nat.eq_of_testBit_eq
    intro j
    rw [high_size, Nat.testBit_shiftRight, Nat.testBit_land]
    have hmask : (0xFFFFFFFF00000000 : Nat) = (2 ^ 32 - 1) <<< 32 := by
      rw [Nat.shiftLeft_eq]; norm_num
    rw [hmask, Nat.testBit_shiftLeft, Nat.testBit_two_pow_sub_one,
      ← Nat.shiftRight_eq_div_pow, Nat.testBit_shiftRight]
    by_cases hj : j < 32
    · simp [hj, Nat.add_sub_cancel_left]
    · have hbit : size.testBit (32 + j) = false := by
        apply Nat.testBit_lt_two_pow
        calc size < 2 ^ 64 := h
          _ ≤ 2 ^ (32 + j) := Nat.pow_le_pow_right (by norm_num) (by omega)
      simp [hbit, hj]
  refine ⟨hhigh, hlow, ?_⟩
  rw [hhigh, hlow]
  have := Nat.div_add_mod size (2 ^ 32)
  omega

/-- Witness for C9 at a size whose high half is nonzero. -/
theorem size_split_exact_witness :
    2 ^ 33 + 7 < 2 ^ 64
    ∧ (high_size (2 ^ 33 + 7) = (2 ^ 33 + 7) / 2 ^ 32
       ∧ low_size (2 ^ 33 + 7) = (2 ^ 33 + 7) % 2 ^ 32
       ∧ high_size (2 ^ 33 + 7) * 2 ^ 32 + low_size (2 ^ 33 + 7) = 2 ^ 33 + 7) :=
  ⟨by norm_num, size_split_exact (2 ^ 33 + 7) (by norm_num)⟩


/-- Claim C2 counterexample: on a mount table with zero tmpfs records the
claimed policy demands `DiscoveryError::NoTmpfsFound`, but the program's
discovery function `find_shm_dir` consults no mount records at all and
yields the constant path. -/
theorem find_shm_dir_no_filter_cex :
    findTmpfsDirectorySpec mountsNoTmpfs = Except.error DiscoveryError.noTmpfsFound
    ∧ find_shm_dir = "/dev/shm/" :=
  ⟨rfl, rfl⟩

/-- Claim C2 (amended): the program's tmpfs discovery ignores mount records —
`find_shm_dir` is the constant `/dev/shm/` with no failure path, while the
spec's selection policy (modelled as `findTmpfsDirectorySpec`) is the one
that fails with `NoTmpfsFound` exactly when zero tmpfs candidates exist. -/
theorem find_shm_dir_constant :
    find_shm_dir = "/dev/shm/"
    ∧ ∀ mounts : List Mount,
        (findTmpfsDirectorySpec mounts = Except.error DiscoveryError.noTmpfsFound ↔
          mounts.filter (fun m => m.file_system_type = FileSystemType.tmpFs) = []) := by
  refine ⟨rfl, fun mounts => ?_⟩
  rcases hfil : mounts.filter (fun m => m.file_system_type = FileSystemType.tmpFs) with
    _ | ⟨m, ms⟩
  · simp [findTmpfsDirectorySpec, hfil]
  · have hmap : (mounts.filter (fun m => m.file_system_type = FileSystemType.tmpFs)).map
        (fun m => m.mount_point) = m.mount_point :: ms.map (fun m => m.mount_point) := by
      rw [hfil]; rfl
    simp only [findTmpfsDirectorySpec, hmap]
    constructor
    · intro h
      split at h <;> cases h
    · intro h
      rw [hfil] at h
      cases h

/-- Witness for C2's quantified part at a concrete mount table. -/
theorem find_shm_dir_constant_witness :
    findTmpfsDirectorySpec mountsNoTmpfs = Except.error DiscoveryError.noTmpfsFound ↔
      mountsNoTmpfs.filter (fun m => m.file_system_type = FileSystemType.tmpFs) = [] :=
  find_shm_dir_constant.2 mountsNoTmpfs

/-- Claim C3 counterexample: the claim says a backslash followed by any
character `c` decodes to `c` taken literally, but `\a` is a parse error. -/
theorem transform_escaped_literal_escape_cex :
    transform_escaped ['\\', 'a'] = none := by decide

/-- Claim C3 (amended): in the `device`/`mount_point` fields, `\040` decodes
to a literal space and `\\` to a literal backslash; a backslash followed by
anything else (or a trailing backslash) is a parse error for the field, not
a literal escape; characters other than the backslash pass through
unchanged. -/
theorem transform_escaped_spec :
    (∀ rest, transform_escaped ('\\' :: '0' :: '4' :: '0' :: rest) =
        (transform_escaped rest).map (fun s => ' ' :: s))
    ∧ (∀ rest, transform_escaped ('\\' :: '\\' :: rest) =
        (transform_escaped rest).map (fun s => '\\' :: s))
    ∧ (∀ c rest, c ≠ '\\' → c ≠ '0' → transform_escaped ('\\' :: c :: rest) = none)
    ∧ (∀ rest, (∀ r, rest ≠ '4' :: '0' :: r) → transform_escaped ('\\' :: '0' :: rest) = none)
    ∧ (∀ c rest, c ≠ '\\' → transform_escaped (c :: rest) =
        (transform_escaped rest).map (fun s => c :: s))
    ∧ transform_escaped ['\\'] = none := by
  refine ⟨fun rest => rfl, fun rest => rfl, ?_, ?_, ?_, rfl⟩
  · intro c rest hc h0
    rw [transform_escaped.eq_def]
    split
    · rename_i heq; exact absurd heq (by simp)
    · rename_i heq; injection heq with h1 h2; injection h2 with h3 _; exact absurd h3 hc
    · rename_i heq; injection heq with h1 h2; injection h2 with h3 _; exact absurd h3 h0
    · rfl
    · rename_i hne heq; injection heq with h1 _; exact absurd h1.symm hne
  · intro rest hr
    rw [transform_escaped.eq_def]
    split
    · rename_i heq; exact absurd heq (by simp)
    · rename_i heq; injection heq with h1 h2; injection h2 with h3 _
      exact absurd h3 (by decide)
    · rename_i heq; injection heq with h1 h2; injection h2 with h3 h4
      exact absurd h4 (hr _)
    · rfl
    · rename_i hne heq; injection heq with h1 _; exact absurd h1.symm hne
  · intro c rest hc
    rw [transform_escaped.eq_def]
    split
    · rename_i heq; exact absurd heq (by simp)
    · rename_i heq; injection heq with h1 _; exact absurd h1 hc
    · rename_i heq; injection heq with h1 _; exact absurd h1 hc
    · rename_i heq; injection heq with h1 _; exact absurd h1 hc
    · rename_i hne heq; injection heq with h1 h2; rw [h1, h2]

/-- Witness for C3 at concrete escapes. -/
theorem transform_escaped_spec_witness :
    transform_escaped ['\\', 'x'] = none
    ∧ transform_escaped ['q', '\\', '0', '4', '0'] = some ['q', ' '] := by
  constructor
  · exact transform_escaped_spec.2.2.1 'x' [] (by decide) (by decide)
  · have h1 := transform_escaped_spec.2.2.2.2.1 'q' ['\\', '0', '4', '0'] (by decide)
    have h2 := transform_escaped_spec.1 []
    rw [h1, h2]; rfl

/-- Claim C1 counterexample: with `remove_file` failing on the first
configured segment (file already absent), the error is returned — not
recorded as a diagnostic only — and the unlink attempt for the remaining
segment `acpmf_static` never runs. -/
theorem shutdown_unlink_error_aborts_cex :
    (shutdownRun failCrewchiefUnlink ACC_FILES ACC_FILES).2 =
      Except.error (unlink_ctx "acpmf_crewchief", "No such file or directory (os error 2)")
    ∧ Ev.unlink "acpmf_static" ∉ (shutdownRun failCrewchiefUnlink ACC_FILES ACC_FILES).1 := by
  constructor
  · rfl
  · decide

/-- Claim C1 (amended): during shutdown an unlink failure is fatal — the
failing attempt's error is wrapped with a context naming the segment and
propagated by `?`, the unlink attempts for the remaining segments are
skipped, and the held mapping handles are still released when `main`
returns. -/
theorem shutdown_unlink_error_aborts
    (unlinkRes : String → Option String) (pre : List String) (f : String)
    (rest held : List String) (e : String)
    (hsplit : ACC_FILES = pre ++ f :: rest)
    (hpre : ∀ g ∈ pre, unlinkRes g = none) (hf : unlinkRes f = some e) :
    shutdownRun unlinkRes ACC_FILES held =
      (pre.map Ev.unlink ++ Ev.unlink f :: held.map Ev.closeHandle,
       Except.error (unlink_ctx f, e)) := by
  rw [hsplit]
  clear hsplit
  induction pre with
  | nil => simp [shutdownRun, hf]
  | cons g gs ih =>
    have hg : unlinkRes g = none := hpre g (by simp)
    have ih' := ih (fun x hx => hpre x (by simp [hx]))
    simp [shutdownRun, hg, ih']

/-- Witness for C1 at a failure on the second configured segment. -/
theorem shutdown_unlink_error_aborts_witness :
    shutdownRun (fun n => if n = "acpmf_static" then some "Permission denied" else none)
        ACC_FILES ["acpmf_crewchief"] =
      ([Ev.unlink "acpmf_crewchief", Ev.unlink "acpmf_static",
        Ev.closeHandle "acpmf_crewchief"],
       Except.error (unlink_ctx "acpmf_static", "Permission denied")) := by
  have h := shutdown_unlink_error_aborts
    (fun n => if n = "acpmf_static" then some "Permission denied" else none)
    ["acpmf_crewchief"] "acpmf_static" ["acpmf_physics", "acpmf_graphics"]
    ["acpmf_crewchief"] "Permission denied" rfl
    (by intro g hg; fin_cases hg; rfl) (by rfl)
  rw [h]; rfl

/-- Claim C8 counterexample: in the run where the first segment's unlink
fails, every handle is closed although the unlink attempt for the
configured segment `acpmf_static` never completed (it never ran). -/
theorem shutdown_close_before_all_unlinks_cex :
    Ev.closeHandle "acpmf_crewchief" ∈ (shutdownRun failCrewchiefUnlink ACC_FILES ACC_FILES).1
    ∧ Ev.unlink "acpmf_static" ∉ (shutdownRun failCrewchiefUnlink ACC_FILES ACC_FILES).1 := by
  decide

/-- Claim C8 (amended): in every shutdown run the events are some unlink
attempts followed by all handle releases — no handle is closed before any
unlink attempt that occurs — and when every unlink succeeds the attempts
cover exactly the configured segments, in order, before any close. -/
theorem shutdown_unlink_before_close
    (unlinkRes : String → Option String) (files held : List String) :
    ∃ us : List String,
      (shutdownRun unlinkRes files held).1 = us.map Ev.unlink ++ held.map Ev.closeHandle
      ∧ ((∀ f ∈ files, unlinkRes f = none) → us = files) := by
  induction files with
  | nil => exact ⟨[], by simp [shutdownRun], fun _ => rfl⟩
  | cons f fs ih =>
    cases hf : unlinkRes f with
    | none =>
      obtain ⟨us, h1, h2⟩ := ih
      refine ⟨f :: us, ?_, ?_⟩
      · simp [shutdownRun, hf, h1]
      · intro hall
        rw [h2 (fun x hx => hall x (by simp [hx]))]
    | some e =>
      refine ⟨[f], ?_, ?_⟩
      · simp [shutdownRun, hf]
      · intro hall
        have := hall f (by simp)
        rw [hf] at this
        cases this

/-- Witness for C8 on the all-successful shutdown run. -/
theorem shutdown_unlink_before_close_witness :
    (shutdownRun (fun _ => none) ACC_FILES ["acpmf_static"]).1 =
      ACC_FILES.map Ev.unlink ++ ["acpmf_static"].map Ev.closeHandle := by
  obtain ⟨us, h1, h2⟩ :=
    shutdown_unlink_before_close (fun _ => none) ACC_FILES ["acpmf_static"]
  rw [h1, h2 (fun _ _ => rfl)]

/-- The startup loop on a split of the segment list whose first failure is
at `f`: events are the creations of the preceding segments followed by the
release of everything created (including what was in `acc`), and the error
names `f` and wraps the cause. -/
theorem startupLoop_error
    (create : String → Nat → Except String Unit) (pre : List String) (f : String)
    (rest : List String) (e : String)
    (hpre : ∀ g ∈ pre, create g (file_size g) = Except.ok ())
    (hf : create f (file_size f) = Except.error e) :
    ∀ acc : List String,
      startupLoop create acc (pre ++ f :: rest) =
        (pre.map Ev.create ++ (acc ++ pre).map Ev.closeHandle,
         Except.error (create_file_mapping_ctx f, e)) := by
  induction pre with
  | nil => intro acc; simp [startupLoop, hf]
  | cons g gs ih =>
    intro acc
    have hg : create g (file_size g) = Except.ok () := hpre g (by simp)
    have ih' := ih (fun x hx => hpre x (by simp [hx])) (acc ++ [g])
    simp [startupLoop, hg, ih']

/-- Claim C4: startup is fail-fast and leak-free — segments are processed in
configuration order; when creating the mapping for `f` fails no further
segment is attempted, every mapping already created in this run is
released before the process exits, and the error names the failing segment
wrapped with the underlying cause. -/
theorem startup_fail_fast_and_released
    (create : String → Nat → Except String Unit) (pre : List String) (f : String)
    (rest : List String) (e : String)
    (hsplit : ACC_FILES = pre ++ f :: rest)
    (hpre : ∀ g ∈ pre, create g (file_size g) = Except.ok ())
    (hf : create f (file_size f) = Except.error e) :
    startup create =
      (pre.map Ev.create ++ pre.map Ev.closeHandle,
       Except.error (create_file_mapping_ctx f, e)) := by
  rw [startup, hsplit, startupLoop_error create pre f rest e hpre hf []]
  simp

/-- Witness for C4 at a failure on the third configured segment. -/
theorem startup_fail_fast_and_released_witness :
    startup (fun g _ => if g = "acpmf_physics" then Except.error "boom" else Except.ok ()) =
      ([Ev.create "acpmf_crewchief", Ev.create "acpmf_static",
        Ev.closeHandle "acpmf_crewchief", Ev.closeHandle "acpmf_static"],
       Except.error (create_file_mapping_ctx "acpmf_physics", "boom")) := by
  have h := startup_fail_fast_and_released
    (fun g _ => if g = "acpmf_physics" then Except.error "boom" else Except.ok ())
    ["acpmf_crewchief", "acpmf_static"] "acpmf_physics" ["acpmf_graphics"] "boom"
    rfl (by intro g hg; fin_cases hg <;> rfl) (by rfl)
  rw [h]; rfl

/-- Claim C5: for every size `S > 0`, `FileMapping::new` first resizes the
backing file to exactly `S`, unconditionally (whatever length the file had
before); after a successful call the file's length is exactly `S`; and a
resize failure fails the whole call with an `IoError` before any native
mapping is created. -/
theorem fileMapping_new_resize_first
    (name : String) (file : RustFile) (size : Nat)
    (setLenFails : Bool) (createRes : Option String)
    (_hpos : 0 < size) :
    ((FileMapping.new name file size setLenFails createRes).1.head? =
        some (MapEvent.setLen size))
    ∧ (∀ f' hs ls,
        (FileMapping.new name file size setLenFails createRes).2 = Except.ok (f', hs, ls) →
          f'.len = size)
    ∧ (setLenFails = true →
        (FileMapping.new name file size setLenFails createRes).2 =
          Except.error (MapError.ioError "Couldn't set the file size of the FileMapping.")
        ∧ ∀ hs ls nm, MapEvent.createFileMapping hs ls nm ∉
            (FileMapping.new name file size setLenFails createRes).1) := by
  cases setLenFails
  · refine ⟨rfl, ?_, by intro h; cases h⟩
    intro f' hs ls hok
    cases createRes with
    | some e => simp [FileMapping.new] at hok
    | none =>
      simp [FileMapping.new] at hok
      rw [← hok.1]
  · refine ⟨rfl, ?_, fun _ => ⟨rfl, ?_⟩⟩
    · intro f' hs ls hok
      simp [FileMapping.new] at hok
    · intro hs ls nm hmem
      simp [FileMapping.new] at hmem

/-- Witness for C5 on a pre-existing file of length 7 resized to 2048, and
on a failing resize. -/
theorem fileMapping_new_resize_first_witness :
    ((FileMapping.new "acpmf_static" ⟨7⟩ 2048 false none).1.head? =
        some (MapEvent.setLen 2048))
    ∧ ((FileMapping.new "acpmf_static" ⟨7⟩ 2048 true none).2 =
        Except.error (MapError.ioError "Couldn't set the file size of the FileMapping.")) :=
  ⟨(fileMapping_new_resize_first "acpmf_static" ⟨7⟩ 2048 false none (by decide)).1,
   ((fileMapping_new_resize_first "acpmf_static" ⟨7⟩ 2048 true none (by decide)).2.2 rfl).1⟩

/-- Every line is accounted for: the parsed mounts and the diagnostics
partition the input lines of `parse_proc_mouns`. -/
theorem parse_proc_mouns_length (lines : List String) :
    (parse_proc_mouns lines).1.length + (parse_proc_mouns lines).2.length = lines.length := by
  induction lines with
  | nil => rfl
  | cons l ls ih =>
    cases h : parse_line l.data <;> simp [parse_proc_mouns, h] <;> omega

/-- On all-well-formed input, `parse_proc_mouns` parses every line and
reports no diagnostic. -/
theorem parse_proc_mouns_all_ok (lines : List String)
    (h : ∀ l ∈ lines, (parse_line l.data).isSome = true) :
    (parse_proc_mouns lines).1.length = lines.length ∧ (parse_proc_mouns lines).2 = [] := by
  induction lines with
  | nil => exact ⟨rfl, rfl⟩
  | cons l ls ih =>
    have hl := h l (by simp)
    obtain ⟨m, hm⟩ := Option.isSome_iff_exists.mp hl
    have ih' := ih (fun x hx => h x (by simp [hx]))
    simp [parse_proc_mouns, hm, ih'.1, ih'.2]

/-- Claim C6: the mount-table loop never aborts on a malformed line — every
line is either parsed or skipped with one diagnostic, and on N well-formed
lines plus one malformed line anywhere it returns exactly N records and
exactly one diagnostic. -/
theorem parse_proc_mouns_skips_malformed :
    (∀ lines : List String,
      (parse_proc_mouns lines).1.length + (parse_proc_mouns lines).2.length = lines.length)
    ∧ ∀ (pre post : List String) (bad : String),
        (∀ l ∈ pre, (parse_line l.data).isSome = true) →
        (∀ l ∈ post, (parse_line l.data).isSome = true) →
        parse_line bad.data = none →
        (parse_proc_mouns (pre ++ bad :: post)).1.length = pre.length + post.length
        ∧ (parse_proc_mouns (pre ++ bad :: post)).2.length = 1 := by
  refine ⟨parse_proc_mouns_length, ?_⟩
  intro pre post bad hpre hpost hbad
  induction pre with
  | nil =>
    have hall := parse_proc_mouns_all_ok post hpost
    simp [parse_proc_mouns, hbad, hall.1, hall.2]
  | cons g gs ih =>
    have hg := hpre g (by simp)
    obtain ⟨m, hm⟩ := Option.isSome_iff_exists.mp hg
    have ih' := ih (fun x hx => hpre x (by simp [hx]))
    simp only [List.cons_append, parse_proc_mouns, hm]
    simp [ih'.1, ih'.2]
    omega

/-- Witness for C6 on two well-formed `/proc/mounts` lines with a malformed
line between them. -/
theorem parse_proc_mouns_skips_malformed_witness :
    (parse_proc_mouns ["proc /proc proc rw 0 0", "garbage",
        "tmpfs /dev/shm tmpfs rw,nosuid 0 0"]).1.length = 2
    ∧ (parse_proc_mouns ["proc /proc proc rw 0 0", "garbage",
        "tmpfs /dev/shm tmpfs rw,nosuid 0 0"]).2.length = 1 := by
  obtain ⟨h1, h2⟩ := parse_proc_mouns_skips_malformed.2
    ["proc /proc proc rw 0 0"] ["tmpfs /dev/shm tmpfs rw,nosuid 0 0"] "garbage"
    (by intro l hl; fin_cases hl; decide)
    (by intro l hl; fin_cases hl; decide)
    (by decide)
  exact ⟨by simpa using h1, h2⟩

/-- Evaluation of `parse_line` on the template line: the five fields before
the pass number parse deterministically, so the outcome is decided by
`fs_passno` on the remaining input `space0 [c]` and the all-consuming
check. -/
theorem template_eval (c : Char) :
    parse_line (passnoTemplate c) =
      match fs_passno (space0 [c]) with
      | some (pn, r6) =>
        if r6 = [] then
          some { device := "proc", mount_point := "/proc",
                 file_system_type := FileSystemType.unknown "proc",
                 options := ["rw"], file_system_frequency := 0,
                 file_system_pass_number := pn }
        else none
      | none => none := by
  simp only [parse_line,
    show device (passnoTemplate c) =
      some (['p','r','o','c'], "/proc proc rw 0 ".data ++ [c]) from rfl,
    show mount_point ("/proc proc rw 0 ".data ++ [c]) =
      some (['/','p','r','o','c'], "proc rw 0 ".data ++ [c]) from rfl,
    show filesystem_type ("proc rw 0 ".data ++ [c]) =
      some (FileSystemType.unknown "proc", "rw 0 ".data ++ [c]) from rfl,
    show mount_options ("rw 0 ".data ++ [c]) =
      some (["rw"], "0 ".data ++ [c]) from rfl,
    show fs_frequency ("0 ".data ++ [c]) = some (0, space0 [c]) from rfl]
  generalize fs_passno (space0 [c]) = o
  rcases o with _ | ⟨pn, r6⟩
  · rfl
  · rfl

/-- `one_of("012")` only ever returns one of the three digit characters. -/
theorem one_of012_chars (input : List Char) (c : Char) (rest : List Char)
    (h : one_of012 input = some (c, rest)) : c = '0' ∨ c = '1' ∨ c = '2' := by
  unfold one_of012 at h
  split at h
  · rename_i c' cs
    split at h
    · rename_i hc
      injection h with h'
      injection h' with h1 h2
      subst h1
      have hcc : (c' = '0' ∨ c' = '1') ∨ c' = '2' := by simpa using hc
      tauto
    · simp at h
  · simp at h

/-- A successful `fs_passno` always yields the value 0, 1 or 2. -/
theorem fs_passno_range (input : List Char) (p : Nat) (rest : List Char)
    (h : fs_passno input = some (p, rest)) : p = 0 ∨ p = 1 ∨ p = 2 := by
  unfold fs_passno at h
  cases hoo : one_of012 (space0 input) with
  | none => rw [hoo] at h; simp at h
  | some cr =>
    obtain ⟨c, cs⟩ := cr
    rw [hoo] at h
    simp only [Option.some.injEq, Prod.mk.injEq] at h
    rcases one_of012_chars _ _ _ hoo with h' | h' | h' <;> subst h' <;>
      rw [← h.1] <;> decide

/-- Claim C7: `parse_line` succeeds only when the pass-number field is the
single digit '0', '1', or '2' — every parsed mount has pass number 0, 1 or
2; on a line that is well-formed except for its pass-number character `c`,
parsing succeeds exactly when `c` is one of '0', '1', '2'; and a
multi-digit pass number such as "10" is a parse failure, not a clamp. -/
theorem parse_line_passno_digit :
    (∀ (line : List Char) (m : Mount), parse_line line = some m →
        m.file_system_pass_number = 0 ∨ m.file_system_pass_number = 1 ∨
        m.file_system_pass_number = 2)
    ∧ (∀ c : Char, (parse_line (passnoTemplate c)).isSome = true ↔
        (c = '0' ∨ c = '1' ∨ c = '2'))
    ∧ parse_line "proc /proc proc rw 0 10".data = none := by
  refine ⟨?_, ?_, by decide⟩
  · intro line m h
    unfold parse_line at h
    split at h
    · simp at h
    split at h
    · simp at h
    split at h
    · simp at h
    split at h
    · simp at h
    split at h
    · simp at h
    split at h
    · simp at h
    rename_i r5 pnr6 pn r6 hpass
    split at h
    · injection h with h'
      rw [← h']
      exact fs_passno_range _ _ _ hpass
    · simp at h
  · intro c
    rw [template_eval c]
    by_cases h0 : c = '0'
    · subst h0; decide
    by_cases h1 : c = '1'
    · subst h1; decide
    by_cases h2 : c = '2'
    · subst h2; decide
    by_cases hsp : c = ' '
    · subst hsp; decide
    by_cases htb : c = '\t'
    · subst htb; decide
    have hns : isNomSpace c = false := by
      simp [isNomSpace]
      exact ⟨hsp, htb⟩
    have hcs : (c == '0' || c == '1' || c == '2') = false := by
      simp [h0, h1, h2]
    have hsp0 : space0 [c] = [c] := by
      simp [space0, spanWhile, hns]
    have hfp : fs_passno (space0 [c]) = none := by
      rw [hsp0]
      unfold fs_passno
      rw [hsp0]
      simp [one_of012, hcs]
    rw [hfp]
    simp [h0, h1, h2]

/-- Witness for C7: '1' is accepted, 'x' is rejected, and the quantified
part applies to a concrete parsed line with pass number 2. -/
theorem parse_line_passno_digit_witness :
    (parse_line (passnoTemplate '1')).isSome = true
    ∧ (parse_line (passnoTemplate 'x')).isSome = false
    ∧ (Mount.file_system_pass_number ⟨"tmpfs", "/dev/shm", FileSystemType.tmpFs, ["rw"], 0, 2⟩ = 0
       ∨ Mount.file_system_pass_number ⟨"tmpfs", "/dev/shm", FileSystemType.tmpFs, ["rw"], 0, 2⟩ = 1
       ∨ Mount.file_system_pass_number ⟨"tmpfs", "/dev/shm", FileSystemType.tmpFs, ["rw"], 0, 2⟩ = 2) :=
  ⟨(parse_line_passno_digit.2.1 '1').mpr (by decide), by decide,
   parse_line_passno_digit.1 "tmpfs /dev/shm tmpfs rw 0 2".data _ (by decide)⟩
